import Mathlib

/-!
Shallow embedding of the outbound dispatch engine of the basha-web-bot
repository: the queue-based bot server (`src/server/bot.js`: the
`/send-update` endpoint, `processQueue`, `processJob`, the watchdog tick
and the hourly image-cleanup task) together with the status bookkeeping
done by the Supabase service layer (`LiveDB.createLog`).

JavaScript values that may be `undefined` are modelled with `Option`;
truthiness checks (`!groupId`, `message && ...`) are modelled explicitly.
External effects (`client.sendMessage`, the database update) are modelled
as events recorded in a trace; whether an individual send succeeds is an
oracle parameter, since it is decided by the external transport.
-/

namespace BashaWebBot

/-- Request body of `POST /send-update`.  Since the handler pushes the
destructured body unchanged (`jobQueue.push({ groupId, message, imageUrls })`),
this is also the shape of a queued job. -/
structure ReqBody where
  groupId : Option String
  message : Option String
  imageUrls : Option (List String)
deriving DecidableEq, Repr

/-- Whitespace as removed by JavaScript `String.prototype.trim` (restricted
to the common ASCII whitespace characters). -/
def isJsSpace (c : Char) : Bool :=
  c == ' ' || c == '\t' || c == '\n' || c == '\r'

/-- `s.trim() === ''`: every character of `s` is whitespace. -/
def trimEmpty (s : String) : Bool :=
  s.data.all isJsSpace

/-- The JavaScript test `(!message || message.trim() === '')` on a possibly
absent string: absent, empty, or whitespace-only. -/
def msgBlank (m : Option String) : Bool :=
  match m with
  | none => true
  | some s => trimEmpty s

/-- The JavaScript test `(!imageUrls || imageUrls.length === 0)`. -/
def imgsEmpty (u : Option (List String)) : Bool :=
  match u with
  | none => true
  | some l => l.length == 0

/-- The JavaScript falsiness test `!groupId` on a possibly absent string:
absent or the empty string. -/
def groupIdFalsy (g : Option String) : Bool :=
  match g with
  | none => true
  | some s => s == ""

/-- `const hasImages = imageUrls && imageUrls.length > 0` (in `processJob`). -/
def hasImages (j : ReqBody) : Bool :=
  match j.imageUrls with
  | none => false
  | some l => decide (0 < l.length)

/-- `const hasText = message && message.trim().length > 0` (in `processJob`). -/
def hasText (j : ReqBody) : Bool :=
  !(msgBlank j.message)

/-- Splits a character list at the first occurrence of `c`; `none` when `c`
does not occur.  Used to model the `url.split(",")` and the regex match
parsing in `processJob`. -/
def breakAtChar (c : Char) : List Char → Option (List Char × List Char)
  | [] => none
  | x :: xs =>
      if x == c then some ([], xs)
      else
        match breakAtChar c xs with
        | none => none
        | some (pre, post) => some (x :: pre, post)

/-- The mime extraction of `processJob` for a data URI:
`parts = url.split(",")`, then the lazy regex match on `parts[0]`
between the first colon and the following semicolon, falling back to
`"image/jpeg"` when the pattern does not match. -/
def dataUriMime (url : String) : String :=
  let head :=
    match breakAtChar ',' url.data with
    | some (pre, _) => pre
    | none => url.data
  match breakAtChar ':' head with
  | none => "image/jpeg"
  | some (_, afterColon) =>
      match breakAtChar ';' afterColon with
      | none => "image/jpeg"
      | some (m, _) => String.mk m

/-- `url.startsWith("data:")`. -/
def isDataUri (url : String) : Bool :=
  List.isPrefixOf "data:".data url.data

/-- Mime type attached to the outgoing `MessageMedia`: parsed from a data
URI, or determined externally (`MessageMedia.fromUrl`) for a remote URL. -/
def mimeOf (url : String) : Option String :=
  if isDataUri url then some (dataUriMime url) else none

/-- The outcome persisted into `activity_logs.status`. -/
inductive LogStatus where
  | PENDING
  | SENT
  | FAILED
deriving DecidableEq, Repr

/-- Options object handed to `client.sendMessage` alongside the media.
`processJob` passes no options object at all, so every send uses the
defaults: no caption, not sent as a document attachment. -/
structure SendOpts where
  caption : Option String
  asDocument : Bool
deriving DecidableEq, Repr

/-- The (absent) options of every `client.sendMessage(groupId, media)` call
in `processJob`. -/
def defaultSendOpts : SendOpts := ⟨none, false⟩

/-- The per-image timeout of `processJob`:
`setTimeout` rejecting with a timeout error after 20000 ms. -/
def imageSendTimeoutMs : Nat := 20000

/-- The delay after each image: `await new Promise(r => setTimeout(r, 2000))`. -/
def interImageDelayMs : Nat := 2000

/-- One iteration of the image loop of `processJob`: which item it was, the
mime attached to the `MessageMedia`, the timeout racing the send, the delay
awaited afterwards, the options passed, and whether the build/send
succeeded (failures are caught and logged). -/
structure MediaAttempt where
  idx : Nat
  mime : Option String
  timeoutMs : Nat
  delayAfterMs : Nat
  opts : SendOpts
  ok : Bool
deriving DecidableEq, Repr

/-- Observable effects of the dispatch engine: a media send iteration, a
standalone text send, or a write of a delivery status to the persisted
log store. -/
inductive Event where
  | media (a : MediaAttempt)
  | text (msg : String) (ok : Bool)
  | statusWrite (s : LogStatus)
deriving DecidableEq, Repr

/-- The `for (let i = 0; i < imageUrls.length; i++)` loop of `processJob`,
starting at index `i`.  Each iteration emits exactly one media event —
errors are caught inside the loop body, so the loop always advances to the
next item. -/
def sendImagesFrom : List String → Nat → (Nat → Bool) → List Event
  | [], _, _ => []
  | u :: rest, i, imgOk =>
      Event.media ⟨i, mimeOf u, imageSendTimeoutMs, interImageDelayMs,
        defaultSendOpts, imgOk i⟩ :: sendImagesFrom rest (i + 1) imgOk

/-- `processJob(job)` from `src/server/bot.js` (queue server): send every
image in order (failures caught and logged, loop continues), then, when the
job has non-blank text, send it as a separate text message (failure caught
and logged).  `imgOk i` tells whether the send of image `i` succeeded;
`textOk` whether the text send succeeded.  Note that `processJob` performs
no database write: it never emits a `statusWrite` event. -/
def processJob (job : ReqBody) (imgOk : Nat → Bool) (textOk : Bool) : List Event :=
  (if hasImages job then sendImagesFrom (job.imageUrls.getD []) 0 imgOk else [])
    ++ (if hasText job then [Event.text (job.message.getD "") textOk] else [])

/-- Media attempts for item `i` occurring in a trace, in order. -/
def mediaAttempts (tr : List Event) (i : Nat) : List MediaAttempt :=
  tr.filterMap fun e =>
    match e with
    | Event.media a => if a.idx == i then some a else none
    | _ => none

/-- Status writes occurring in a trace, in order. -/
def statusWrites (tr : List Event) : List LogStatus :=
  tr.filterMap fun e =>
    match e with
    | Event.statusWrite s => some s
    | _ => none

/-- Standalone text messages sent in a trace, in order. -/
def textSends (tr : List Event) : List String :=
  tr.filterMap fun e =>
    match e with
    | Event.text m _ => some m
    | _ => none

/-- Captions attached to media sends in a trace, in order. -/
def captionsUsed (tr : List Event) : List String :=
  tr.filterMap fun e =>
    match e with
    | Event.media a => a.opts.caption
    | _ => none

/-- Response of the `/send-update` endpoint: an error JSON with an HTTP
status, or the acknowledgement `{ success: true, status: "queued" }` (which
by construction carries no further data, in particular no queue depth). -/
inductive Resp where
  | err (status : Nat) (msg : String)
  | queued
deriving DecidableEq, Repr

/-- HTTP status of a response (`res.json` without `res.status` is 200). -/
def respStatus : Resp → Nat
  | Resp.err s _ => s
  | Resp.queued => 200

/-- `response.ok` as seen by the frontend caller. -/
def respOk (r : Resp) : Bool :=
  match r with
  | Resp.queued => true
  | Resp.err _ _ => false

/-- The `app.post("/send-update")` handler of the queue server: reject 503
when the client is not ready, 400 when `groupId` is falsy, 400 when both
the message is blank and the image list is absent/empty; otherwise push the
body onto the tail of `jobQueue` and reply with the fixed queued
acknowledgement immediately (processing is only triggered, not awaited). -/
def handleSendUpdate (isReady : Bool) (body : ReqBody) (jobQueue : List ReqBody) :
    Resp × List ReqBody :=
  if !isReady then (Resp.err 503 "WhatsApp not connected", jobQueue)
  else if groupIdFalsy body.groupId then (Resp.err 400 "Missing groupId", jobQueue)
  else if msgBlank body.message && imgsEmpty body.imageUrls then
    (Resp.err 400 "At least a message or an image is required", jobQueue)
  else (Resp.queued, jobQueue ++ [body])

/-- Final status computed by `LiveDB.createLog` after posting to the bot:
when the resident has a (truthy) WhatsApp group id and there is content,
`SENT` exactly when the HTTP request to `/send-update` came back ok,
`FAILED` otherwise; with a group but no content, `SENT`; without a group,
the record stays `PENDING`. -/
def createLogFinalStatus (residentGroupId aiMessage : Option String)
    (imageUrls : Option (List String)) (botRespOk : Bool) : LogStatus :=
  let hasMessage := !(msgBlank aiMessage)
  let hasImgs := !(imgsEmpty imageUrls)
  if (!(groupIdFalsy residentGroupId)) && (hasMessage || hasImgs) then
    if botRespOk then LogStatus.SENT else LogStatus.FAILED
  else if !(groupIdFalsy residentGroupId) then LogStatus.SENT
  else LogStatus.PENDING

/-- The status updates issued by `LiveDB.createLog`:
update the status column exactly when the final status is not `PENDING`. -/
def createLogStatusWrites (st : LogStatus) : List LogStatus :=
  if st == LogStatus.PENDING then [] else [st]

/-- A row of the `activity_logs` table, as inserted by `LiveDB.createLog`.
`created_at` is an epoch timestamp in milliseconds. -/
structure ActivityLogRecord where
  id : Nat
  resident_id : String
  resident_name : String
  staff_name : String
  category : String
  notes : String
  image_urls : List String
  status : String
  ai_generated_message : String
  created_at : Nat
deriving DecidableEq, Repr

/-- The 15-hour retention window of the hourly cleanup task. -/
def retentionWindowMs : Nat := 15 * 60 * 60 * 1000

/-- `new Date(Date.now() - 15 * 60 * 60 * 1000)`: the cutoff instant. -/
def cleanupCutoff (now : Nat) : Nat := now - retentionWindowMs

/-- Effect of the update clearing `image_urls` on rows with `created_at` below the limit on a
single row: rows strictly older than the cutoff get their `image_urls`
cleared, every other column and every other row is untouched. -/
def redactRecord (cutoff : Nat) (r : ActivityLogRecord) : ActivityLogRecord :=
  if r.created_at < cutoff then { r with image_urls := [] } else r

/-- One run of the hourly image-cleanup task over the whole table. -/
def imageCleanupPass (now : Nat) (tbl : List ActivityLogRecord) :
    List ActivityLogRecord :=
  tbl.map (redactRecord (cleanupCutoff now))

/-- Stuck threshold of the watchdog: `if (duration > 120000)`. -/
def stuckThresholdMs : Nat := 120000

/-- Tick of the watchdog interval: `setInterval(..., 60000)`. -/
def watchdogTickMs : Nat := 60000

/-- The stuck-job check run on every watchdog tick:
`isProcessingQueue && lastJobStartTime > 0 && Date.now() - lastJobStartTime > 120000`. -/
def watchdogStuckCheck (isProcessingQueue : Bool) (lastJobStartTime now : Nat) : Bool :=
  isProcessingQueue && decide (0 < lastJobStartTime)
    && decide (stuckThresholdMs < now - lastJobStartTime)

/-- State owned by the queue server: the pending `jobQueue` and the
`isProcessingQueue` flag, instrumented with history fields — the jobs
currently being processed (`active`), the jobs started so far in order
(`started`), and all jobs ever enqueued in order (`enqueued`). -/
structure DispatchState where
  queue : List ReqBody
  isProcessingQueue : Bool
  active : List ReqBody
  started : List ReqBody
  enqueued : List ReqBody
deriving DecidableEq, Repr

/-- Atomic steps of the dispatch engine, as the single-threaded event loop
interleaves them:
* `enqueue` — the endpoint pushes a job onto the tail of `jobQueue`;
* `start` — a `processQueue` invocation passes its guard
  (`if (isProcessingQueue || jobQueue.length === 0) return`), sets the
  flag and shifts the head of the queue (no `await` separates these, so
  they are one atomic step);
* `finish` — the `finally` block of `processQueue` clears the flag when the
  `processJob` of the active job has completed. -/
inductive DStep : DispatchState → DispatchState → Prop where
  | enqueue (s : DispatchState) (j : ReqBody) :
      DStep s ⟨s.queue ++ [j], s.isProcessingQueue, s.active, s.started,
        s.enqueued ++ [j]⟩
  | start (s : DispatchState) (j : ReqBody) (rest : List ReqBody) :
      s.isProcessingQueue = false → s.queue = j :: rest →
      DStep s ⟨rest, true, s.active ++ [j], s.started ++ [j], s.enqueued⟩
  | finish (s : DispatchState) (j : ReqBody) (rest : List ReqBody) :
      s.active = j :: rest →
      DStep s ⟨s.queue, false, rest, s.started, s.enqueued⟩

/-- Server start: empty queue, flag down, nothing processed yet. -/
def initDispatchState : DispatchState := ⟨[], false, [], [], []⟩

/-- States the dispatch engine can reach from server start. -/
def Reachable (s : DispatchState) : Prop :=
  Relation.ReflTransGen DStep initDispatchState s

/-- Effect of one watchdog tick on the dispatcher: when the stuck check
fires, `process.exit(1)` — no surviving state (`none`); otherwise the tick
only logs a heartbeat and leaves the dispatcher state untouched. -/
def watchdogEffect (s : DispatchState) (lastJobStartTime now : Nat) :
    Option DispatchState :=
  if watchdogStuckCheck s.isProcessingQueue lastJobStartTime now then none
  else some s

theorem statusWrites_append (a b : List Event) :
    statusWrites (a ++ b) = statusWrites a ++ statusWrites b := by
  simp [statusWrites, List.filterMap_append]

theorem textSends_append (a b : List Event) :
    textSends (a ++ b) = textSends a ++ textSends b := by
  simp [textSends, List.filterMap_append]

theorem captionsUsed_append (a b : List Event) :
    captionsUsed (a ++ b) = captionsUsed a ++ captionsUsed b := by
  simp [captionsUsed, List.filterMap_append]

theorem mediaAttempts_append (a b : List Event) (i : Nat) :
    mediaAttempts (a ++ b) i = mediaAttempts a i ++ mediaAttempts b i := by
  simp [mediaAttempts, List.filterMap_append]

theorem mediaAttempts_cons_media (a : MediaAttempt) (tr : List Event) (i : Nat) :
    mediaAttempts (Event.media a :: tr) i =
      (if a.idx == i then [a] else []) ++ mediaAttempts tr i := by
  simp only [mediaAttempts, List.filterMap_cons]
  by_cases h : a.idx == i <;> simp [h]

theorem statusWrites_sendImagesFrom (l : List String) (s : Nat) (f : Nat → Bool) :
    statusWrites (sendImagesFrom l s f) = [] := by
  induction l generalizing s with
  | nil => rfl
  | cons u rest ih =>
    simpa [sendImagesFrom, statusWrites, List.filterMap_cons] using ih (s + 1)

theorem textSends_sendImagesFrom (l : List String) (s : Nat) (f : Nat → Bool) :
    textSends (sendImagesFrom l s f) = [] := by
  induction l generalizing s with
  | nil => rfl
  | cons u rest ih =>
    simpa [sendImagesFrom, textSends, List.filterMap_cons] using ih (s + 1)

theorem captionsUsed_sendImagesFrom (l : List String) (s : Nat) (f : Nat → Bool) :
    captionsUsed (sendImagesFrom l s f) = [] := by
  induction l generalizing s with
  | nil => rfl
  | cons u rest ih =>
    simpa [sendImagesFrom, captionsUsed, List.filterMap_cons, defaultSendOpts]
      using ih (s + 1)

theorem length_mediaAttempts_sendImagesFrom (l : List String) (s i : Nat) (f : Nat → Bool) :
    (mediaAttempts (sendImagesFrom l s f) i).length =
      if s ≤ i ∧ i < s + l.length then 1 else 0 := by
  induction l generalizing s with
  | nil =>
    simp only [sendImagesFrom, mediaAttempts, List.filterMap_nil, List.length_nil]
    split_ifs with h <;> omega
  | cons u rest ih =>
    rw [sendImagesFrom, mediaAttempts_cons_media, List.length_append, ih (s + 1)]
    simp only [beq_iff_eq, List.length_cons, List.length_nil]
    split_ifs <;> simp_all <;> omega

theorem mem_sendImagesFrom (l : List String) (s : Nat) (f : Nat → Bool) (a : MediaAttempt)
    (h : Event.media a ∈ sendImagesFrom l s f) :
    a.timeoutMs = imageSendTimeoutMs ∧ a.delayAfterMs = interImageDelayMs ∧
      a.opts = defaultSendOpts := by
  induction l generalizing s with
  | nil => simp [sendImagesFrom] at h
  | cons u rest ih =>
    simp only [sendImagesFrom, List.mem_cons] at h
    rcases h with h | h
    · injection h with h2
      subst h2
      exact ⟨rfl, rfl, rfl⟩
    · exact ih (s + 1) h

theorem media_mem_processJob (job : ReqBody) (f : Nat → Bool) (t : Bool) (a : MediaAttempt)
    (h : Event.media a ∈ processJob job f t) :
    a.timeoutMs = imageSendTimeoutMs ∧ a.delayAfterMs = interImageDelayMs ∧
      a.opts = defaultSendOpts := by
  unfold processJob at h
  rw [List.mem_append] at h
  rcases h with h | h
  · split at h
    · exact mem_sendImagesFrom _ _ _ _ h
    · simp at h
  · split at h <;> simp at h

theorem statusWrites_processJob (job : ReqBody) (f : Nat → Bool) (t : Bool) :
    statusWrites (processJob job f t) = [] := by
  rw [processJob, statusWrites_append]
  have h1 : statusWrites
      (if hasImages job then sendImagesFrom (job.imageUrls.getD []) 0 f else []) = [] := by
    split_ifs
    · exact statusWrites_sendImagesFrom _ _ _
    · rfl
  have h2 : statusWrites
      (if hasText job then [Event.text (job.message.getD "") t] else []) = [] := by
    split_ifs <;> rfl
  rw [h1, h2]
  rfl

theorem textSends_processJob (job : ReqBody) (f : Nat → Bool) (t : Bool) :
    textSends (processJob job f t) =
      if hasText job then [job.message.getD ""] else [] := by
  rw [processJob, textSends_append]
  have h1 : textSends
      (if hasImages job then sendImagesFrom (job.imageUrls.getD []) 0 f else []) = [] := by
    split_ifs
    · exact textSends_sendImagesFrom _ _ _
    · rfl
  rw [h1, List.nil_append]
  split_ifs <;> rfl

theorem captionsUsed_processJob (job : ReqBody) (f : Nat → Bool) (t : Bool) :
    captionsUsed (processJob job f t) = [] := by
  rw [processJob, captionsUsed_append]
  have h1 : captionsUsed
      (if hasImages job then sendImagesFrom (job.imageUrls.getD []) 0 f else []) = [] := by
    split_ifs
    · exact captionsUsed_sendImagesFrom _ _ _
    · rfl
  have h2 : captionsUsed
      (if hasText job then [Event.text (job.message.getD "") t] else []) = [] := by
    split_ifs <;> rfl
  rw [h1, h2]
  rfl

theorem length_mediaAttempts_processJob (job : ReqBody) (f : Nat → Bool) (t : Bool) (i : Nat) :
    (mediaAttempts (processJob job f t) i).length =
      if i < (job.imageUrls.getD []).length then 1 else 0 := by
  rw [processJob, mediaAttempts_append, List.length_append]
  have h1 : (mediaAttempts
      (if hasText job then [Event.text (job.message.getD "") t] else []) i).length = 0 := by
    split_ifs <;> rfl
  rw [h1]
  cases h : hasImages job with
  | false =>
    have hl : (job.imageUrls.getD []).length = 0 := by
      cases hu : job.imageUrls with
      | none => rfl
      | some l =>
        simp [hasImages, hu] at h
        simp [h]
    simp only [h, Bool.false_eq_true, if_false, hl]
    simp [mediaAttempts]
  | true =>
    simp only [h, if_true]
    rw [length_mediaAttempts_sendImagesFrom]
    split_ifs <;> omega

theorem mediaAttempts_mem_idx (tr : List Event) (i : Nat) (a : MediaAttempt)
    (h : a ∈ mediaAttempts tr i) : Event.media a ∈ tr ∧ a.idx = i := by
  rw [mediaAttempts, List.mem_filterMap] at h
  obtain ⟨e, he, hg⟩ := h
  rcases e with b | ⟨m, ok⟩ | st
  · have hg2 : (if (b.idx == i) = true then some b else none) = some a := hg
    by_cases hb : b.idx == i
    · rw [if_pos hb] at hg2
      injection hg2 with h2
      subst h2
      exact ⟨he, by simpa using hb⟩
    · rw [if_neg hb] at hg2
      cases hg2
  · have hg2 : (none : Option MediaAttempt) = some a := hg
    cases hg2
  · have hg2 : (none : Option MediaAttempt) = some a := hg
    cases hg2

theorem reachable_inv (s : DispatchState) (h : Reachable s) :
    (s.isProcessingQueue = false → s.active = []) ∧ s.active.length ≤ 1 ∧
      s.started ++ s.queue = s.enqueued := by
  unfold Reachable at h
  induction h with
  | refl => exact ⟨fun _ => rfl, by simp [initDispatchState], rfl⟩
  | @tail b c hr step ih =>
    obtain ⟨ih1, ih2, ih3⟩ := ih
    cases step with
    | enqueue j =>
      refine ⟨ih1, ih2, ?_⟩
      show b.started ++ (b.queue ++ [j]) = b.enqueued ++ [j]
      rw [← List.append_assoc, ih3]
    | start j rest hflag hq =>
      have hact : b.active = [] := ih1 hflag
      refine ⟨?_, ?_, ?_⟩
      · intro hfalse
        simp at hfalse
      · show (b.active ++ [j]).length ≤ 1
        rw [hact]
        simp
      · show (b.started ++ [j]) ++ rest = b.enqueued
        rw [List.append_assoc, ← ih3, hq]
        rfl
    | finish j rest hact2 =>
      have hlen : (j :: rest).length ≤ 1 := hact2 ▸ ih2
      have hrest : rest = [] := by
        simp only [List.length_cons] at hlen
        exact List.length_eq_zero.mp (by omega)
      exact ⟨fun _ => hrest, by simp [hrest], ih3⟩

/-- C4: for any sequence of jobs enqueued while the transport is healthy, in
every reachable state of the dispatch engine the jobs started so far,
followed by the still-pending queue, are exactly the enqueued jobs in
enqueue order (strict FIFO dispatch), and at most one job is ever active at
an instant — the `isProcessingQueue` guard of `processQueue` being the only
thing blocking a second concurrent start. -/
theorem c4_fifo_single_active (s : DispatchState) (h : Reachable s) :
    s.active.length ≤ 1 ∧ s.started ++ s.queue = s.enqueued :=
  ⟨(reachable_inv s h).2.1, (reachable_inv s h).2.2⟩

/-- Witness for C4 at the reachable state in which the job
`⟨some "g", some "hi", none⟩` has been enqueued and then started. -/
theorem c4_witness :
    (⟨[], true, [⟨some "g", some "hi", none⟩], [⟨some "g", some "hi", none⟩],
        [⟨some "g", some "hi", none⟩]⟩ : DispatchState).active.length ≤ 1 ∧
      (⟨[], true, [⟨some "g", some "hi", none⟩], [⟨some "g", some "hi", none⟩],
        [⟨some "g", some "hi", none⟩]⟩ : DispatchState).started ++
        (⟨[], true, [⟨some "g", some "hi", none⟩], [⟨some "g", some "hi", none⟩],
          [⟨some "g", some "hi", none⟩]⟩ : DispatchState).queue =
        (⟨[], true, [⟨some "g", some "hi", none⟩], [⟨some "g", some "hi", none⟩],
          [⟨some "g", some "hi", none⟩]⟩ : DispatchState).enqueued := by
  refine c4_fifo_single_active _ ?_
  refine Relation.ReflTransGen.tail (Relation.ReflTransGen.tail
    Relation.ReflTransGen.refl
    (DStep.enqueue initDispatchState ⟨some "g", some "hi", none⟩)) ?_
  exact DStep.start _ ⟨some "g", some "hi", none⟩ [] rfl rfl

/-- C5: once the dispatcher has been continuously `Processing` one job past
the stuck threshold (breach at `jobStart + stuckThresholdMs + 1`), some
60-second watchdog tick falls within one tick interval of the breach and
the stuck check fires there (`process.exit(1)`); moreover a watchdog tick
either terminates the process (`none`) or leaves the dispatcher state
exactly as it was — it never repairs state in place. -/
theorem c5_watchdog_fires_within_tick (jobStart breachTime : Nat)
    (h1 : 0 < jobStart) (h2 : breachTime = jobStart + stuckThresholdMs + 1) :
    (∃ k, breachTime ≤ k * watchdogTickMs ∧
        k * watchdogTickMs ≤ breachTime + watchdogTickMs ∧
        watchdogStuckCheck true jobStart (k * watchdogTickMs) = true) ∧
      (∀ s lastStart now, watchdogEffect s lastStart now = none ∨
        watchdogEffect s lastStart now = some s) := by
  constructor
  · refine ⟨breachTime / watchdogTickMs + 1, ?_, ?_, ?_⟩
    · simp only [watchdogTickMs]
      omega
    · simp only [watchdogTickMs]
      omega
    · simp only [watchdogStuckCheck, stuckThresholdMs, watchdogTickMs, h2,
        Bool.and_eq_true, decide_eq_true_eq, true_and]
      simp only [stuckThresholdMs] at h2
      constructor
      · exact h1
      · omega
  · intro s lastStart now
    unfold watchdogEffect
    split_ifs <;> simp

/-- Witness for C5 with the job started at time 1, so the breach happens at
time 120002; the third watchdog tick (t = 180000) lies within one tick of
the breach and fires. -/
theorem c5_witness :
    (∃ k, 120002 ≤ k * watchdogTickMs ∧
        k * watchdogTickMs ≤ 120002 + watchdogTickMs ∧
        watchdogStuckCheck true 1 (k * watchdogTickMs) = true) ∧
      (∀ s lastStart now, watchdogEffect s lastStart now = none ∨
        watchdogEffect s lastStart now = some s) :=
  c5_watchdog_fires_within_tick 1 120002 (by decide) (by decide)

/-- C9: the hourly redaction pass clears `image_urls` of every record
strictly older than the 15-hour window, leaves all its text columns (and
every other column) unchanged, leaves records at or newer than the window
entirely unmodified, and acts on each row of the table independently. -/
theorem c9_redaction_pass (now : Nat) (r : ActivityLogRecord) :
    (r.created_at < cleanupCutoff now →
        (redactRecord (cleanupCutoff now) r).image_urls = [] ∧
        (redactRecord (cleanupCutoff now) r).notes = r.notes ∧
        (redactRecord (cleanupCutoff now) r).ai_generated_message =
          r.ai_generated_message ∧
        (redactRecord (cleanupCutoff now) r).resident_id = r.resident_id ∧
        (redactRecord (cleanupCutoff now) r).resident_name = r.resident_name ∧
        (redactRecord (cleanupCutoff now) r).staff_name = r.staff_name ∧
        (redactRecord (cleanupCutoff now) r).category = r.category ∧
        (redactRecord (cleanupCutoff now) r).status = r.status ∧
        (redactRecord (cleanupCutoff now) r).created_at = r.created_at ∧
        (redactRecord (cleanupCutoff now) r).id = r.id) ∧
      (¬ r.created_at < cleanupCutoff now →
        redactRecord (cleanupCutoff now) r = r) ∧
      (∀ tbl, r ∈ tbl →
        redactRecord (cleanupCutoff now) r ∈ imageCleanupPass now tbl) := by
  refine ⟨?_, ?_, ?_⟩
  · intro h
    simp [redactRecord, h]
  · intro h
    simp [redactRecord, h]
  · intro tbl hmem
    exact List.mem_map_of_mem _ hmem

/-- Witness for C9: a record created at time 1 is redacted (images cleared,
notes kept) by a pass run at time 100000000; a record created at time
99999999 is left entirely unchanged. -/
theorem c9_witness :
    ((redactRecord (cleanupCutoff 100000000)
        ⟨7, "rid", "Alice", "Bob", "Meals", "ate well", ["u1", "u2"], "SENT",
          "msg", 1⟩).image_urls = [] ∧
      (redactRecord (cleanupCutoff 100000000)
        ⟨7, "rid", "Alice", "Bob", "Meals", "ate well", ["u1", "u2"], "SENT",
          "msg", 1⟩).notes = "ate well") ∧
      redactRecord (cleanupCutoff 100000000)
        ⟨7, "rid", "Alice", "Bob", "Meals", "ate well", ["u1", "u2"], "SENT",
          "msg", 99999999⟩ =
        ⟨7, "rid", "Alice", "Bob", "Meals", "ate well", ["u1", "u2"], "SENT",
          "msg", 99999999⟩ := by
  constructor
  · have h := (c9_redaction_pass 100000000
      ⟨7, "rid", "Alice", "Bob", "Meals", "ate well", ["u1", "u2"], "SENT",
        "msg", 1⟩).1 (by decide)
    exact ⟨h.1, h.2.1⟩
  · exact (c9_redaction_pass 100000000
      ⟨7, "rid", "Alice", "Bob", "Meals", "ate well", ["u1", "u2"], "SENT",
        "msg", 99999999⟩).2.1 (by decide)

/-- C1 counterexample: in the job with media items `[img0, img1]` and text
"hello", item 0 exhausts its (single-attempt) budget, yet item 1 is still
attempted (and succeeds), the trailing text is still sent, and no FAILED
status is ever written by the dispatcher — `processJob` catches each
failure and continues, contradicting the claimed immediate abort and the
claimed single FAILED write. -/
theorem c1_counterexample :
    (mediaAttempts (processJob ⟨some "g", some "hello",
        some ["data:image/jpeg;base64,AAA", "data:image/jpeg;base64,BBB"]⟩
        (fun i => i == 1) true) 0).map MediaAttempt.ok = [false] ∧
      (mediaAttempts (processJob ⟨some "g", some "hello",
        some ["data:image/jpeg;base64,AAA", "data:image/jpeg;base64,BBB"]⟩
        (fun i => i == 1) true) 1).map MediaAttempt.ok = [true] ∧
      textSends (processJob ⟨some "g", some "hello",
        some ["data:image/jpeg;base64,AAA", "data:image/jpeg;base64,BBB"]⟩
        (fun i => i == 1) true) = ["hello"] ∧
      statusWrites (processJob ⟨some "g", some "hello",
        some ["data:image/jpeg;base64,AAA", "data:image/jpeg;base64,BBB"]⟩
        (fun i => i == 1) true) = [] := by decide

/-- C1 amended: when a media item of a job fails, `processJob` logs the
error and carries on — every media item of the job (in particular every one
after a failed item) is attempted exactly once, the trailing text is still
sent whenever present, and `processJob` performs no status write at all (in
particular it never marks the record FAILED). -/
theorem c1_continue_past_failure (job : ReqBody) (imgOk : Nat → Bool)
    (textOk : Bool) (i : Nat) (hi : i < (job.imageUrls.getD []).length) :
    (mediaAttempts (processJob job imgOk textOk) i).length = 1 ∧
      (hasText job = true →
        textSends (processJob job imgOk textOk) = [job.message.getD ""]) ∧
      statusWrites (processJob job imgOk textOk) = [] := by
  refine ⟨?_, ?_, statusWrites_processJob _ _ _⟩
  · rw [length_mediaAttempts_processJob, if_pos hi]
  · intro ht
    rw [textSends_processJob, if_pos ht]

/-- Witness for C1 amended: item 0 of the two-item job fails, yet item 1 is
still attempted exactly once, the text still goes out, and nothing is
written to the log store. -/
theorem c1_witness :
    (mediaAttempts (processJob ⟨some "g", some "hello",
        some ["data:image/jpeg;base64,AAA", "data:image/jpeg;base64,BBB"]⟩
        (fun i => i == 1) true) 1).length = 1 ∧
      (hasText ⟨some "g", some "hello",
        some ["data:image/jpeg;base64,AAA", "data:image/jpeg;base64,BBB"]⟩ = true →
        textSends (processJob ⟨some "g", some "hello",
          some ["data:image/jpeg;base64,AAA", "data:image/jpeg;base64,BBB"]⟩
          (fun i => i == 1) true) =
          [(⟨some "g", some "hello",
            some ["data:image/jpeg;base64,AAA", "data:image/jpeg;base64,BBB"]⟩ :
              ReqBody).message.getD ""]) ∧
      statusWrites (processJob ⟨some "g", some "hello",
        some ["data:image/jpeg;base64,AAA", "data:image/jpeg;base64,BBB"]⟩
        (fun i => i == 1) true) = [] :=
  c1_continue_past_failure _ _ _ 1 (by decide)

/-- C2 counterexample: for the job of Scenario A (one image, text "Lunch
was great") no caption is ever attached to a media send — the only media
attempt carries `caption = none` — and the text is delivered as a separate
standalone text message, contradicting the claimed caption-on-last-item
behaviour. -/
theorem c2_counterexample :
    captionsUsed (processJob ⟨some "g", some "Lunch was great",
        some ["data:image/jpeg;base64,AAA"]⟩ (fun _ => true) true) = [] ∧
      (mediaAttempts (processJob ⟨some "g", some "Lunch was great",
        some ["data:image/jpeg;base64,AAA"]⟩ (fun _ => true) true) 0).map
        (fun a => a.opts.caption) = [none] ∧
      textSends (processJob ⟨some "g", some "Lunch was great",
        some ["data:image/jpeg;base64,AAA"]⟩ (fun _ => true) true) =
        ["Lunch was great"] := by decide

/-- C2 amended: `processJob` never attaches a caption to any media item;
when the text of the job is non-blank it is sent exactly once as a separate
standalone text message after the media loop, and when the text is blank
no text message is sent. -/
theorem c2_standalone_text (job : ReqBody) (imgOk : Nat → Bool) (textOk : Bool) :
    captionsUsed (processJob job imgOk textOk) = [] ∧
      (hasText job = true →
        textSends (processJob job imgOk textOk) = [job.message.getD ""]) ∧
      (hasText job = false → textSends (processJob job imgOk textOk) = []) := by
  refine ⟨captionsUsed_processJob _ _ _, ?_, ?_⟩
  · intro h
    rw [textSends_processJob, if_pos h]
  · intro h
    rw [textSends_processJob, if_neg (by simp [h])]

/-- Witness for C2 amended at the Scenario A job. -/
theorem c2_witness :
    captionsUsed (processJob ⟨some "g", some "Lunch was great",
        some ["data:image/jpeg;base64,AAA"]⟩ (fun _ => true) true) = [] ∧
      (hasText ⟨some "g", some "Lunch was great",
        some ["data:image/jpeg;base64,AAA"]⟩ = true →
        textSends (processJob ⟨some "g", some "Lunch was great",
          some ["data:image/jpeg;base64,AAA"]⟩ (fun _ => true) true) =
          [(⟨some "g", some "Lunch was great",
            some ["data:image/jpeg;base64,AAA"]⟩ : ReqBody).message.getD ""]) ∧
      (hasText ⟨some "g", some "Lunch was great",
        some ["data:image/jpeg;base64,AAA"]⟩ = false →
        textSends (processJob ⟨some "g", some "Lunch was great",
          some ["data:image/jpeg;base64,AAA"]⟩ (fun _ => true) true) = []) :=
  c2_standalone_text _ _ _

/-- C3 counterexample: for a job with an image-class and a video-class
item, both failing, each item receives exactly one attempt (not up to 3 —
the failing video item is never retried), both attempts race the same
fixed 20-second timeout (no short-for-image / long-for-video distinction),
and each is followed by the same fixed 2-second delay (no linearly growing
backoff). -/
theorem c3_counterexample :
    mimeOf "data:image/jpeg;base64,AAA" = some "image/jpeg" ∧
      mimeOf "data:video/mp4;base64,QQ" = some "video/mp4" ∧
      (mediaAttempts (processJob ⟨some "g", none,
        some ["data:image/jpeg;base64,AAA", "data:video/mp4;base64,QQ"]⟩
        (fun _ => false) false) 0).map MediaAttempt.timeoutMs = [20000] ∧
      (mediaAttempts (processJob ⟨some "g", none,
        some ["data:image/jpeg;base64,AAA", "data:video/mp4;base64,QQ"]⟩
        (fun _ => false) false) 1).map MediaAttempt.timeoutMs = [20000] ∧
      (mediaAttempts (processJob ⟨some "g", none,
        some ["data:image/jpeg;base64,AAA", "data:video/mp4;base64,QQ"]⟩
        (fun _ => false) false) 1).map MediaAttempt.delayAfterMs = [2000] ∧
      (mediaAttempts (processJob ⟨some "g", none,
        some ["data:image/jpeg;base64,AAA", "data:video/mp4;base64,QQ"]⟩
        (fun _ => false) false) 1).length = 1 := by decide

/-- C3 amended: every media item of a job receives exactly one attempt
(one iteration of the image loop, whatever the outcome), and every attempt
uses the fixed 20-second timeout and is followed by the fixed 2-second
delay, independent of the mime class of the item; there are no retries and no
attempt-indexed backoff. -/
theorem c3_single_attempt_fixed_timing (job : ReqBody) (imgOk : Nat → Bool)
    (textOk : Bool) (i : Nat) :
    (mediaAttempts (processJob job imgOk textOk) i).length =
        (if i < (job.imageUrls.getD []).length then 1 else 0) ∧
      ∀ a ∈ mediaAttempts (processJob job imgOk textOk) i,
        a.timeoutMs = imageSendTimeoutMs ∧ a.delayAfterMs = interImageDelayMs := by
  refine ⟨length_mediaAttempts_processJob _ _ _ _, ?_⟩
  intro a ha
  have h1 := mediaAttempts_mem_idx _ _ _ ha
  have h2 := media_mem_processJob _ _ _ _ h1.1
  exact ⟨h2.1, h2.2.1⟩

/-- Witness for C3 amended at the mixed image/video job with both sends
failing. -/
theorem c3_witness :
    (mediaAttempts (processJob ⟨some "g", none,
        some ["data:image/jpeg;base64,AAA", "data:video/mp4;base64,QQ"]⟩
        (fun _ => false) false) 1).length =
        (if 1 < ((⟨some "g", none,
          some ["data:image/jpeg;base64,AAA", "data:video/mp4;base64,QQ"]⟩ :
            ReqBody).imageUrls.getD []).length then 1 else 0) ∧
      ∀ a ∈ mediaAttempts (processJob ⟨some "g", none,
        some ["data:image/jpeg;base64,AAA", "data:video/mp4;base64,QQ"]⟩
        (fun _ => false) false) 1,
        a.timeoutMs = imageSendTimeoutMs ∧ a.delayAfterMs = interImageDelayMs :=
  c3_single_attempt_fixed_timing _ _ _ 1

/-- C7 counterexample: the single video-class item fails its first (and
default-mode) attempt, yet no further attempt of any kind follows — in
particular no attempt in a downgraded document/fallback mode; the trace
contains exactly one attempt for the item and no event with
`asDocument = true`. -/
theorem c7_counterexample :
    mimeOf "data:video/mp4;base64,QQ" = some "video/mp4" ∧
      mediaAttempts (processJob ⟨some "g", none, some ["data:video/mp4;base64,QQ"]⟩
        (fun _ => false) false) 0 =
        [⟨0, some "video/mp4", 20000, 2000, defaultSendOpts, false⟩] ∧
      (processJob ⟨some "g", none, some ["data:video/mp4;base64,QQ"]⟩
        (fun _ => false) false).filter
        (fun e => match e with
          | Event.media a => a.opts.asDocument
          | _ => false) = [] := by decide

/-- C7 amended: no media item is ever attempted more than once, and every
attempt — for video-class and image-class items alike — uses the same
default send options (`caption = none`, `asDocument = false`): the code has
no `sendMode`, so a failed video item is simply not retried and no one-way
downgrade ever happens. -/
theorem c7_no_retry_no_downgrade (job : ReqBody) (imgOk : Nat → Bool)
    (textOk : Bool) :
    (∀ i, (mediaAttempts (processJob job imgOk textOk) i).length ≤ 1) ∧
      ∀ a, Event.media a ∈ processJob job imgOk textOk →
        a.opts = defaultSendOpts := by
  refine ⟨fun i => ?_, fun a ha => (media_mem_processJob _ _ _ _ ha).2.2⟩
  rw [length_mediaAttempts_processJob]
  split_ifs <;> omega

/-- Witness for C7 amended at the failing single-video job. -/
theorem c7_witness :
    (∀ i, (mediaAttempts (processJob ⟨some "g", none,
        some ["data:video/mp4;base64,QQ"]⟩ (fun _ => false) false) i).length ≤ 1) ∧
      ∀ a, Event.media a ∈ processJob ⟨some "g", none,
        some ["data:video/mp4;base64,QQ"]⟩ (fun _ => false) false →
        a.opts = defaultSendOpts :=
  c7_no_retry_no_downgrade _ _ _

/-- C6 counterexample: the `/send-update` endpoint acknowledges the job
before any processing, so `createLog` — which derives the status from that
HTTP response — writes `SENT` (exactly once) even though the only
media send subsequently fails and the dispatcher itself writes no status at
all: `SENT` is recorded although not every send succeeded, and the write
does not wait for delivery to complete. -/
theorem c6_counterexample :
    (handleSendUpdate true
        ⟨some "group1", some "", some ["data:image/jpeg;base64,AAAA"]⟩ []).1 =
        Resp.queued ∧
      createLogStatusWrites (createLogFinalStatus (some "group1") (some "")
        (some ["data:image/jpeg;base64,AAAA"])
        (respOk (handleSendUpdate true
          ⟨some "group1", some "", some ["data:image/jpeg;base64,AAAA"]⟩ []).1)) =
        [LogStatus.SENT] ∧
      (mediaAttempts (processJob
        ⟨some "group1", some "", some ["data:image/jpeg;base64,AAAA"]⟩
        (fun _ => false) true) 0).map MediaAttempt.ok = [false] ∧
      statusWrites (processJob
        ⟨some "group1", some "", some ["data:image/jpeg;base64,AAAA"]⟩
        (fun _ => false) true) = [] := by decide

/-- C6 amended: the status is written not by the dispatcher but by the
caller `createLog`, exactly once per job that has a (truthy) group and some
content: `SENT` when the enqueue HTTP request was accepted, `FAILED` when
it failed — i.e. the outcome records enqueue acceptance, not delivery —
while `processJob` itself performs no status write whatsoever. -/
theorem c6_status_written_once_on_enqueue (gid m : Option String)
    (urls : Option (List String)) (ok : Bool)
    (h1 : groupIdFalsy gid = false)
    (h2 : msgBlank m = false ∨ imgsEmpty urls = false) :
    createLogStatusWrites (createLogFinalStatus gid m urls ok) =
        [if ok then LogStatus.SENT else LogStatus.FAILED] ∧
      ∀ job imgOk textOk, statusWrites (processJob job imgOk textOk) = [] := by
  constructor
  · cases ok <;> rcases h2 with h2 | h2 <;>
      simp [createLogFinalStatus, createLogStatusWrites, h1, h2]
  · intro job imgOk textOk
    exact statusWrites_processJob job imgOk textOk

/-- Witness for C6 amended: a job with a group and a non-blank message
whose enqueue request failed is marked FAILED exactly once. -/
theorem c6_witness :
    createLogStatusWrites (createLogFinalStatus (some "group1") (some "hello")
        none false) =
        [if false then LogStatus.SENT else LogStatus.FAILED] ∧
      ∀ job imgOk textOk, statusWrites (processJob job imgOk textOk) = [] :=
  c6_status_written_once_on_enqueue (some "group1") (some "hello") none false
    (by decide) (Or.inl (by decide))

/-- C8 counterexample: the acknowledgement returned by `/send-update` is
the same fixed value `{ success: true, status: "queued" }` whether the
queue held 0 or 3 jobs before the enqueue (depths 1 and 4 afterwards), so
the response carries no queue depth and is not of the claimed shape
`{ accepted: true, queueDepth }`. -/
theorem c8_counterexample :
    (handleSendUpdate true ⟨some "g", some "hi", none⟩ []).1 = Resp.queued ∧
      (handleSendUpdate true ⟨some "g", some "hi", none⟩
        [⟨some "g", some "a", none⟩, ⟨some "g", some "b", none⟩,
          ⟨some "g", some "c", none⟩]).1 = Resp.queued ∧
      (handleSendUpdate true ⟨some "g", some "hi", none⟩ []).2.length = 1 ∧
      (handleSendUpdate true ⟨some "g", some "hi", none⟩
        [⟨some "g", some "a", none⟩, ⟨some "g", some "b", none⟩,
          ⟨some "g", some "c", none⟩]).2.length = 4 := by decide

/-- C8 amended: when the client is not ready the request is rejected with
503 and nothing is enqueued; when the client is ready and the body passes
validation, the job is appended to the tail of the queue and the fixed
acknowledgement `{ success: true, status: "queued" }` — carrying no queue
depth — is returned immediately, before the job is processed. -/
theorem c8_enqueue_ack (body : ReqBody) (q : List ReqBody) :
    handleSendUpdate false body q = (Resp.err 503 "WhatsApp not connected", q) ∧
      (groupIdFalsy body.groupId = false →
        (msgBlank body.message = false ∨ imgsEmpty body.imageUrls = false) →
        handleSendUpdate true body q = (Resp.queued, q ++ [body])) := by
  constructor
  · rfl
  · intro h1 h2
    rcases h2 with h2 | h2 <;> simp [handleSendUpdate, h1, h2]

/-- Witness for C8 amended at a ready client with a valid one-message body
and a one-job queue. -/
theorem c8_witness :
    handleSendUpdate false ⟨some "g", some "hi", none⟩ [⟨some "g2", some "a", none⟩] =
        (Resp.err 503 "WhatsApp not connected", [⟨some "g2", some "a", none⟩]) ∧
      (groupIdFalsy (some "g") = false →
        (msgBlank (some "hi") = false ∨ imgsEmpty (none : Option (List String)) = false) →
        handleSendUpdate true ⟨some "g", some "hi", none⟩ [⟨some "g2", some "a", none⟩] =
          (Resp.queued, [⟨some "g2", some "a", none⟩] ++ [⟨some "g", some "hi", none⟩])) :=
  c8_enqueue_ack ⟨some "g", some "hi", none⟩ [⟨some "g2", some "a", none⟩]

/-- C10 counterexample: a request missing `groupId` that arrives while the
client is not ready is answered with HTTP 503 (`WhatsApp not connected`),
not 400 — the ready check precedes all validation — though the queue is
indeed left unchanged. -/
theorem c10_counterexample :
    handleSendUpdate false ⟨none, some "hi", none⟩ [] =
        (Resp.err 503 "WhatsApp not connected", []) ∧
      respStatus (handleSendUpdate false ⟨none, some "hi", none⟩ []).1 = 503 := by
  decide

/-- C10 amended: while the client is ready, a request with a falsy
`groupId` gets HTTP 400 (`Missing groupId`) with the queue unchanged, and a
request with a present groupId but a blank message and absent/empty
`imageUrls` gets HTTP 400 (`At least a message or an image is required`)
with the queue unchanged; while the client is not ready such requests are
rejected with 503, likewise leaving the queue unchanged. -/
theorem c10_validation_rejects (body : ReqBody) (q : List ReqBody) :
    (groupIdFalsy body.groupId = true →
        handleSendUpdate true body q = (Resp.err 400 "Missing groupId", q)) ∧
      (groupIdFalsy body.groupId = false → msgBlank body.message = true →
        imgsEmpty body.imageUrls = true →
        handleSendUpdate true body q =
          (Resp.err 400 "At least a message or an image is required", q)) ∧
      (handleSendUpdate false body q).2 = q := by
  refine ⟨fun h => ?_, fun h1 h2 h3 => ?_, rfl⟩
  · simp [handleSendUpdate, h]
  · simp [handleSendUpdate, h1, h2, h3]

/-- Witness for C10 amended: a ready client rejects a missing `groupId`
with 400, and a body with only whitespace text and no images with 400,
leaving the queue as it was. -/
theorem c10_witness :
    (groupIdFalsy (none : Option String) = true →
        handleSendUpdate true ⟨none, some "hi", none⟩ [] =
          (Resp.err 400 "Missing groupId", [])) ∧
      (groupIdFalsy (none : Option String) = false → msgBlank (some "hi") = true →
        imgsEmpty (none : Option (List String)) = true →
        handleSendUpdate true ⟨none, some "hi", none⟩ [] =
          (Resp.err 400 "At least a message or an image is required", [])) ∧
      (handleSendUpdate false ⟨none, some "hi", none⟩ []).2 = [] :=
  c10_validation_rejects ⟨none, some "hi", none⟩ []

end BashaWebBot
